import Mathlib

/-!
Verification of the texture/material registry and shader-uniform binding layer
of `Source/SceneManager.cpp` (class `SceneManager`).

The C++ class state that matters here is:
  * the texture registry: the array `m_textureIDs` (entries `{GLuint ID; std::string tag}`)
    together with the counter `m_loadedTextures` — modelled as a `List TextureEntry`
    in registration order;
  * the material catalog `m_objectMaterials : std::vector<OBJECT_MATERIAL>` —
    modelled as a `List OBJECT_MATERIAL`;
  * the shader-parameter sink reached through `m_pShaderManager` — modelled as the
    record `ShaderState` holding the uniforms this layer writes
    (`bUseTexture`, `objectColor`, `objectTexture`, `UVscale`, `material.*`).
Color components are modelled as rationals, GL texture names as naturals.
-/

/-- A 3-component float vector (glm::vec3), components as rationals. -/
structure Vec3 where
  x : ℚ
  y : ℚ
  z : ℚ
deriving DecidableEq

/-- A 4-component float vector (glm::vec4 holding RGBA), components as rationals. -/
structure Vec4 where
  r : ℚ
  g : ℚ
  b : ℚ
  a : ℚ
deriving DecidableEq

/-- A 2-component float vector (glm::vec2), components as rationals. -/
structure Vec2 where
  u : ℚ
  v : ℚ
deriving DecidableEq

/-- One slot of `m_textureIDs`: a GL texture name plus its tag
(struct `TEXTURE_INFO` in the class header). -/
structure TextureEntry where
  ID : Nat
  tag : String
deriving DecidableEq

/-- `OBJECT_MATERIAL`: diffuse color, specular color, shininess, tag. -/
structure OBJECT_MATERIAL where
  diffuseColor : Vec3
  specularColor : Vec3
  shininess : ℚ
  tag : String
deriving DecidableEq

/-- The result `stbi_load` hands back on success: dimensions and channel count.
(`CreateGLTexture` receives `none` when the file cannot be read or parsed.) -/
structure ImageData where
  width : Nat
  height : Nat
  colorChannels : Nat
deriving DecidableEq

/-- The shader uniforms written by this layer of `SceneManager`, i.e. the
shader-side state behind `m_pShaderManager` (a non-NULL sink). -/
structure ShaderState where
  bUseTexture : Bool
  objectColor : Vec4
  objectTexture : Int
  UVscale : Vec2
  materialDiffuseColor : Vec3
  materialSpecularColor : Vec3
  materialShininess : ℚ
deriving DecidableEq

/-- `SceneManager::CreateGLTexture` (SceneManager.cpp:60-124).
`image` is the `stbi_load` result; `textureID` is the fresh GL name produced by
`glGenTextures`.  On a decoded image with 3 (RGB) or 4 (RGBA) channels the
texture is uploaded and `(tag, ID)` is registered at index `m_loadedTextures`
(modelled as appending to the list) and the counter incremented; any other
channel count hits the `else` branch which prints and `return false` before the
registration lines run; a failed decode returns `false` with nothing registered.
There is no capacity check of any kind before the write to
`m_textureIDs[m_loadedTextures]`. -/
def createGLTexture (registry : List TextureEntry) (image : Option ImageData)
    (textureID : Nat) (tag : String) : Bool × List TextureEntry :=
  match image with
  | some img =>
      if img.colorChannels = 3 then
        (true, registry ++ [{ ID := textureID, tag := tag }])
      else if img.colorChannels = 4 then
        (true, registry ++ [{ ID := textureID, tag := tag }])
      else
        (false, registry)
  | none => (false, registry)

/-- `SceneManager::BindGLTextures` (SceneManager.cpp:132-140): for each
`i < m_loadedTextures`, bind texture unit `GL_TEXTURE0 + i` to
`m_textureIDs[i].ID`.  The result is the list of (unit, GL name) bindings. -/
def bindGLTextures (registry : List TextureEntry) : List (Nat × Nat) :=
  registry.enum.map fun p => (p.1, p.2.ID)

/-- `SceneManager::DestroyGLTextures` (SceneManager.cpp:148-154).  The loop body
is `glGenTextures(1, &m_textureIDs[i].ID)` — it stores a FRESH GL texture name
into each entry (`freshIDBase + i` here models the names the driver hands out);
`glDeleteTextures` is never called, so the second component — the list of GL
names actually deleted — is empty, and `m_loadedTextures` is left untouched, so
every entry stays registered. -/
def destroyGLTextures (registry : List TextureEntry) (freshIDBase : Nat) :
    List TextureEntry × List Nat :=
  (registry.enum.map fun p => { p.2 with ID := freshIDBase + p.1 }, [])

/-- The while loop of `SceneManager::FindTextureSlot` (SceneManager.cpp:194-203):
scan from `index`, stop at the first entry whose tag compares equal. -/
def findTextureSlotAux : List TextureEntry → String → Int → Int
  | [], _, _ => -1
  | e :: rest, tag, index =>
      if e.tag = tag then index else findTextureSlotAux rest tag (index + 1)

/-- `SceneManager::FindTextureSlot` (SceneManager.cpp:188-206): first-match
linear scan returning the registration-order index, `-1` when absent. -/
def findTextureSlot (registry : List TextureEntry) (tag : String) : Int :=
  findTextureSlotAux registry tag 0

/-- The while loop of `SceneManager::FindTextureID` (SceneManager.cpp:168-177). -/
def findTextureIDAux : List TextureEntry → String → Int
  | [], _ => -1
  | e :: rest, tag => if e.tag = tag then (e.ID : Int) else findTextureIDAux rest tag

/-- `SceneManager::FindTextureID` (SceneManager.cpp:162-180): same first-match
scan, returning the GL texture name instead of the slot index. -/
def findTextureID (registry : List TextureEntry) (tag : String) : Int :=
  findTextureIDAux registry tag

/-- The while loop of `SceneManager::FindMaterial` (SceneManager.cpp:221-236):
on the first tag match it overwrites the out-parameter's diffuse/specular/
shininess fields (never its tag) and stops; otherwise the out-parameter keeps
whatever it held (in the caller it is an uninitialized stack local). -/
def findMaterialLoop : List OBJECT_MATERIAL → String → OBJECT_MATERIAL → OBJECT_MATERIAL
  | [], _, material => material
  | m :: rest, tag, material =>
      if m.tag = tag then
        { material with
            diffuseColor := m.diffuseColor
            specularColor := m.specularColor
            shininess := m.shininess }
      else findMaterialLoop rest tag material

/-- `SceneManager::FindMaterial` (SceneManager.cpp:214-239).  Returns the bool
result and the final value of the out-parameter `material` (whose incoming
value is `material₀`).  Note the source returns `false` only on an empty
catalog; after the loop it returns `true` unconditionally — the local `bFound`
flag is computed but never returned. -/
def findMaterial (catalog : List OBJECT_MATERIAL) (tag : String)
    (material₀ : OBJECT_MATERIAL) : Bool × OBJECT_MATERIAL :=
  if catalog.length = 0 then
    (false, material₀)
  else
    (true, findMaterialLoop catalog tag material₀)

/-- `SceneManager::SetShaderColor` (SceneManager.cpp:285-304): pushes
`bUseTexture := false` then the RGBA color to `objectColor`. -/
def setShaderColor (red green blue alpha : ℚ) (s : ShaderState) : ShaderState :=
  { s with
      bUseTexture := false
      objectColor := { r := red, g := green, b := blue, a := alpha } }

/-- `SceneManager::SetShaderTexture` (SceneManager.cpp:312-323): pushes
`bUseTexture := true`, then resolves the tag with `FindTextureSlot` and pushes
whatever it returned (`-1` included) as the sampler value. -/
def setShaderTexture (registry : List TextureEntry) (textureTag : String)
    (s : ShaderState) : ShaderState :=
  { s with
      bUseTexture := true
      objectTexture := findTextureSlot registry textureTag }

/-- `SceneManager::SetTextureUVScale` (SceneManager.cpp:331-337). -/
def setTextureUVScale (u v : ℚ) (s : ShaderState) : ShaderState :=
  { s with UVscale := { u := u, v := v } }

/-- `SceneManager::SetShaderMaterial` (SceneManager.cpp:405-421).  The local
`OBJECT_MATERIAL material` is an uninitialized stack value, modelled by the
parameter `junk`; when `FindMaterial` returns `true` the (possibly never
written) fields are pushed to the shader. -/
def setShaderMaterial (materials : List OBJECT_MATERIAL) (materialTag : String)
    (junk : OBJECT_MATERIAL) (s : ShaderState) : ShaderState :=
  if 0 < materials.length then
    let result := findMaterial materials materialTag junk
    if result.1 then
      { s with
          materialDiffuseColor := result.2.diffuseColor
          materialSpecularColor := result.2.specularColor
          materialShininess := result.2.shininess }
    else s
  else s

/-!  Transform composer (`SceneManager::SetTransformations`, SceneManager.cpp:247-277).
The glm matrices are embedded over ℝ in the column-vector convention glm uses:
`glm::scale`, `glm::rotate(angle, axis)` for the three coordinate axes, and
`glm::translate` with the translation in the fourth column. -/

noncomputable section

/-- `glm::radians`: degrees to radians. -/
def radians (degrees : ℝ) : ℝ := degrees * (Real.pi / 180)

/-- `glm::scale(scaleXYZ)` as a 4×4 matrix. -/
def scaleMatrix (sx sy sz : ℝ) : Matrix (Fin 4) (Fin 4) ℝ :=
  !![sx, 0, 0, 0;
     0, sy, 0, 0;
     0, 0, sz, 0;
     0, 0, 0, 1]

/-- `glm::rotate(θ, vec3(1,0,0))` as a 4×4 matrix. -/
def rotationXMatrix (θ : ℝ) : Matrix (Fin 4) (Fin 4) ℝ :=
  !![1, 0, 0, 0;
     0, Real.cos θ, -Real.sin θ, 0;
     0, Real.sin θ, Real.cos θ, 0;
     0, 0, 0, 1]

/-- `glm::rotate(θ, vec3(0,1,0))` as a 4×4 matrix. -/
def rotationYMatrix (θ : ℝ) : Matrix (Fin 4) (Fin 4) ℝ :=
  !![Real.cos θ, 0, Real.sin θ, 0;
     0, 1, 0, 0;
     -Real.sin θ, 0, Real.cos θ, 0;
     0, 0, 0, 1]

/-- `glm::rotate(θ, vec3(0,0,1))` as a 4×4 matrix. -/
def rotationZMatrix (θ : ℝ) : Matrix (Fin 4) (Fin 4) ℝ :=
  !![Real.cos θ, -Real.sin θ, 0, 0;
     Real.sin θ, Real.cos θ, 0, 0;
     0, 0, 1, 0;
     0, 0, 0, 1]

/-- `glm::translate(positionXYZ)` as a 4×4 matrix. -/
def translationMatrix (px py pz : ℝ) : Matrix (Fin 4) (Fin 4) ℝ :=
  !![1, 0, 0, px;
     0, 1, 0, py;
     0, 0, 1, pz;
     0, 0, 0, 1]

/-- `SceneManager::SetTransformations` (SceneManager.cpp:247-277): the model
matrix pushed to the `model` uniform,
`modelView = translation * rotationZ * rotationY * rotationX * scale`,
with each rotation angle given in degrees and converted by `glm::radians`. -/
def setTransformations (sx sy sz Xdeg Ydeg Zdeg px py pz : ℝ) :
    Matrix (Fin 4) (Fin 4) ℝ :=
  translationMatrix px py pz *
    rotationZMatrix (radians Zdeg) *
    rotationYMatrix (radians Ydeg) *
    rotationXMatrix (radians Xdeg) *
    scaleMatrix sx sy sz

/-- The translation component of a 4×4 model matrix: the first three entries of
its fourth column. -/
def extractTranslation (m : Matrix (Fin 4) (Fin 4) ℝ) : ℝ × ℝ × ℝ :=
  (m 0 3, m 1 3, m 2 3)

end

/-!  Per-draw uniform-binder operation sequences, for the state-machine claim:
each constructor is one of the `SceneManager` calls a draw sequence makes
against a fixed texture registry and material catalog, plus the mesh-draw
primitives themselves (which only read the uniforms, never write them). -/

/-- One uniform-binder call in a render sequence. -/
inductive BinderOp where
  | setColor (red green blue alpha : ℚ)
  | setTexture (tag : String)
  | setUVScale (u v : ℚ)
  | setMaterial (tag : String) (junk : OBJECT_MATERIAL)
  | drawMesh
deriving DecidableEq

/-- Effect of one binder call on the shader state (`drawMesh` reads state only). -/
def applyOp (registry : List TextureEntry) (materials : List OBJECT_MATERIAL)
    (s : ShaderState) : BinderOp → ShaderState
  | .setColor red green blue alpha => setShaderColor red green blue alpha s
  | .setTexture tag => setShaderTexture registry tag s
  | .setUVScale u v => setTextureUVScale u v s
  | .setMaterial tag junk => setShaderMaterial materials tag junk s
  | .drawMesh => s

/-- Run a sequence of binder calls left to right from state `s`. -/
def runOps (registry : List TextureEntry) (materials : List OBJECT_MATERIAL)
    (s : ShaderState) (ops : List BinderOp) : ShaderState :=
  ops.foldl (applyOp registry materials) s

/-- The texture-vs-flat-color mode the last mode-setting call of `ops` selects:
`some false` when it was a `setColor`, `some true` when a `setTexture`, `none`
when neither occurs. -/
def lastMode : List BinderOp → Option Bool
  | [] => none
  | op :: rest =>
      match lastMode rest with
      | some b => some b
      | none =>
          match op with
          | .setColor _ _ _ _ => some false
          | .setTexture _ => some true
          | _ => none

/-!  Concrete scenario constants used by the counterexample/bug theorems. -/

/-- Modelled from the spec: the fixed slot limit of the texture registry —
the bound of the `m_textureIDs` array declared in the class header (not in
`src/`); `BindGLTextures`'s comment and the spec agree on "up to 16 slots". -/
def MAX_TEXTURES : Nat := 16

/-- A registry already holding `MAX_TEXTURES` entries. -/
def fullRegistry : List TextureEntry :=
  (List.range MAX_TEXTURES).map fun i => { ID := i + 1, tag := toString i }

/-- A 3-channel (RGB) decode result, as for `textures/steel.jpg`. -/
def steelImage : ImageData := { width := 64, height := 64, colorChannels := 3 }

/-- The registry after `CreateGLTexture("textures/steel.jpg", "steel")` succeeds
on an empty registry with GL name 7. -/
def steelRegistry : List TextureEntry :=
  (createGLTexture [] (some steelImage) 7 "steel").2

/-- The first material `DefineObjectMaterials` pushes (SceneManager.cpp:434-440):
diffuse (0.2, 0.2, 1.0), specular (0.6, 0.5, 0.4), shininess 22, tag "metal". -/
def metalMaterial : OBJECT_MATERIAL :=
  { diffuseColor := { x := 1/5, y := 1/5, z := 1 }
    specularColor := { x := 3/5, y := 1/2, z := 2/5 }
    shininess := 22
    tag := "metal" }

/-- A stand-in for the indeterminate contents of the uninitialized stack local
`OBJECT_MATERIAL material` in `SetShaderMaterial`. -/
def junkMaterial : OBJECT_MATERIAL :=
  { diffuseColor := { x := 9, y := 9, z := 9 }
    specularColor := { x := 9, y := 9, z := 9 }
    shininess := 9
    tag := "" }

/-- A shader state with every uniform at its GL default. -/
def initialShaderState : ShaderState :=
  { bUseTexture := false
    objectColor := { r := 0, g := 0, b := 0, a := 0 }
    objectTexture := 0
    UVscale := { u := 0, v := 0 }
    materialDiffuseColor := { x := 0, y := 0, z := 0 }
    materialSpecularColor := { x := 0, y := 0, z := 0 }
    materialShininess := 0 }

/-!  Theorems. -/

/-- C1: the claim says a lookup of a tag absent from a populated material
catalog reports "not found" and leaves the shader material state unchanged.
The code violates it: with the catalog holding only `metalMaterial`,
`FindMaterial("missing", ...)` returns `true`, and `SetShaderMaterial` then
pushes the uninitialized local's fields, changing the shader material state. -/
theorem findMaterial_absent_tag_reports_found :
    (findMaterial [metalMaterial] "missing" junkMaterial).1 = true ∧
    (setShaderMaterial [metalMaterial] "missing" junkMaterial
        initialShaderState).materialShininess = junkMaterial.shininess ∧
    setShaderMaterial [metalMaterial] "missing" junkMaterial initialShaderState ≠
      initialShaderState := by
  decide

/-- C2: after loading "steel" first and binding, `SetShaderTexture("steel")`
resolves to slot 0 as claimed; but for the unregistered tag "missing" the code
takes no error path — it enables texture sampling and pushes the sentinel `-1`
returned by `FindTextureSlot` straight to the sampler uniform. -/
theorem setShaderTexture_unknown_tag_pushes_sentinel :
    (createGLTexture [] (some steelImage) 7 "steel").1 = true ∧
    bindGLTextures steelRegistry = [(0, 7)] ∧
    (setShaderTexture steelRegistry "steel" initialShaderState).objectTexture = 0 ∧
    (setShaderTexture steelRegistry "steel" initialShaderState).bUseTexture = true ∧
    (setShaderTexture steelRegistry "missing" initialShaderState).objectTexture = -1 ∧
    (setShaderTexture steelRegistry "missing" initialShaderState).bUseTexture = true := by
  decide

/-- C3: the claim says `DestroyGLTextures` empties the registry, releases every
GPU texture, and no tag resolves afterwards.  The code violates it: the loop
calls `glGenTextures` (allocating fresh names) instead of `glDeleteTextures`,
deletes nothing, leaves the entry count at 1, and the tag "steel" still
resolves to slot 0 (and to the freshly generated name 100). -/
theorem destroyGLTextures_registry_still_resolves :
    (destroyGLTextures steelRegistry 100).2 = [] ∧
    ((destroyGLTextures steelRegistry 100).1).length = 1 ∧
    findTextureSlot (destroyGLTextures steelRegistry 100).1 "steel" = 0 ∧
    findTextureID (destroyGLTextures steelRegistry 100).1 "steel" = 100 := by
  decide

/-- C4: the claim says a load at the fixed slot limit fails with
`CapacityExceeded` and registers nothing.  The code violates it: with
`MAX_TEXTURES = 16` entries already registered, `CreateGLTexture` still reports
success and registers a 17th entry (the C++ writes `m_textureIDs[16]`, past the
array, with no capacity check). -/
theorem createGLTexture_no_capacity_check :
    fullRegistry.length = MAX_TEXTURES ∧
    (createGLTexture fullRegistry (some steelImage) 99 "overflow").1 = true ∧
    ((createGLTexture fullRegistry (some steelImage) 99 "overflow").2).length =
      MAX_TEXTURES + 1 := by
  decide

/-- C5: for a decoded image, `CreateGLTexture` succeeds and appends exactly one
registry entry when the channel count is 3 or 4, and fails leaving the registry
(and hence its size) unchanged for every other channel count. -/
theorem createGLTexture_channel_check (registry : List TextureEntry)
    (img : ImageData) (textureID : Nat) (tag : String) :
    createGLTexture registry (some img) textureID tag =
      (if img.colorChannels = 3 ∨ img.colorChannels = 4 then
        (true, registry ++ [{ ID := textureID, tag := tag }])
       else (false, registry)) ∧
    ((createGLTexture registry (some img) textureID tag).2).length =
      (if img.colorChannels = 3 ∨ img.colorChannels = 4 then
        registry.length + 1
       else registry.length) := by
  unfold createGLTexture
  by_cases h3 : img.colorChannels = 3 <;> by_cases h4 : img.colorChannels = 4 <;>
    simp [h3, h4]

lemma radians_zero : radians 0 = 0 := by
  simp [radians]

lemma scaleMatrix_one : scaleMatrix 1 1 1 = 1 := by
  ext i j
  fin_cases i <;> fin_cases j <;>
    simp [scaleMatrix, Matrix.one_apply, Matrix.vecHead, Matrix.vecTail]

lemma rotationXMatrix_zero : rotationXMatrix 0 = 1 := by
  ext i j
  fin_cases i <;> fin_cases j <;>
    simp [rotationXMatrix, Matrix.one_apply, Matrix.vecHead, Matrix.vecTail]

lemma rotationYMatrix_zero : rotationYMatrix 0 = 1 := by
  ext i j
  fin_cases i <;> fin_cases j <;>
    simp [rotationYMatrix, Matrix.one_apply, Matrix.vecHead, Matrix.vecTail]

lemma rotationZMatrix_zero : rotationZMatrix 0 = 1 := by
  ext i j
  fin_cases i <;> fin_cases j <;>
    simp [rotationZMatrix, Matrix.one_apply, Matrix.vecHead, Matrix.vecTail]

lemma translationMatrix_zero : translationMatrix 0 0 0 = 1 := by
  ext i j
  fin_cases i <;> fin_cases j <;>
    simp [translationMatrix, Matrix.one_apply, Matrix.vecHead, Matrix.vecTail]

/-- C6: the model matrix is composed exactly as
translation · rotationZ · rotationY · rotationX · scale — acting on any vector,
scale applies first, then the X, Y, Z rotations, translation last — and the
all-neutral inputs (scale (1,1,1), rotations 0°, position (0,0,0)) give the
identity matrix. -/
theorem setTransformations_order_and_identity :
    (∀ (sx sy sz Xdeg Ydeg Zdeg px py pz : ℝ) (v : Fin 4 → ℝ),
      Matrix.mulVec (setTransformations sx sy sz Xdeg Ydeg Zdeg px py pz) v =
        Matrix.mulVec (translationMatrix px py pz)
          (Matrix.mulVec (rotationZMatrix (radians Zdeg))
            (Matrix.mulVec (rotationYMatrix (radians Ydeg))
              (Matrix.mulVec (rotationXMatrix (radians Xdeg))
                (Matrix.mulVec (scaleMatrix sx sy sz) v))))) ∧
    setTransformations 1 1 1 0 0 0 0 0 0 = 1 := by
  constructor
  · intro sx sy sz xd yd zd px py pz v
    simp [setTransformations, Matrix.mulVec_mulVec, Matrix.mul_assoc]
  · unfold setTransformations
    rw [radians_zero, scaleMatrix_one, rotationXMatrix_zero, rotationYMatrix_zero,
      rotationZMatrix_zero, translationMatrix_zero]
    simp

lemma mul_lastCol (A B : Matrix (Fin 4) (Fin 4) ℝ) (i : Fin 4)
    (h0 : B 0 3 = 0) (h1 : B 1 3 = 0) (h2 : B 2 3 = 0) (h3 : B 3 3 = 1) :
    (A * B) i 3 = A i 3 := by
  rw [Matrix.mul_apply, Fin.sum_univ_four, h0, h1, h2, h3]
  ring

lemma scaleMatrix_lastCol (A : Matrix (Fin 4) (Fin 4) ℝ) (sx sy sz : ℝ) (i : Fin 4) :
    (A * scaleMatrix sx sy sz) i 3 = A i 3 :=
  mul_lastCol A _ i (by simp [scaleMatrix])
    (by simp [scaleMatrix, Matrix.vecHead, Matrix.vecTail])
    (by simp [scaleMatrix, Matrix.vecHead, Matrix.vecTail])
    (by simp [scaleMatrix, Matrix.vecHead, Matrix.vecTail])

lemma rotationXMatrix_lastCol (A : Matrix (Fin 4) (Fin 4) ℝ) (θ : ℝ) (i : Fin 4) :
    (A * rotationXMatrix θ) i 3 = A i 3 :=
  mul_lastCol A _ i (by simp [rotationXMatrix])
    (by simp [rotationXMatrix, Matrix.vecHead, Matrix.vecTail])
    (by simp [rotationXMatrix, Matrix.vecHead, Matrix.vecTail])
    (by simp [rotationXMatrix, Matrix.vecHead, Matrix.vecTail])

lemma rotationYMatrix_lastCol (A : Matrix (Fin 4) (Fin 4) ℝ) (θ : ℝ) (i : Fin 4) :
    (A * rotationYMatrix θ) i 3 = A i 3 :=
  mul_lastCol A _ i (by simp [rotationYMatrix])
    (by simp [rotationYMatrix, Matrix.vecHead, Matrix.vecTail])
    (by simp [rotationYMatrix, Matrix.vecHead, Matrix.vecTail])
    (by simp [rotationYMatrix, Matrix.vecHead, Matrix.vecTail])

lemma rotationZMatrix_lastCol (A : Matrix (Fin 4) (Fin 4) ℝ) (θ : ℝ) (i : Fin 4) :
    (A * rotationZMatrix θ) i 3 = A i 3 :=
  mul_lastCol A _ i (by simp [rotationZMatrix])
    (by simp [rotationZMatrix, Matrix.vecHead, Matrix.vecTail])
    (by simp [rotationZMatrix, Matrix.vecHead, Matrix.vecTail])
    (by simp [rotationZMatrix, Matrix.vecHead, Matrix.vecTail])

/-- C7: for every scale, rotation and position input, the translation component
of the composed model matrix equals the position input exactly. -/
theorem setTransformations_translation_component
    (sx sy sz Xdeg Ydeg Zdeg px py pz : ℝ) :
    extractTranslation (setTransformations sx sy sz Xdeg Ydeg Zdeg px py pz) =
      (px, py, pz) := by
  have h : ∀ i : Fin 4,
      setTransformations sx sy sz Xdeg Ydeg Zdeg px py pz i 3 =
        translationMatrix px py pz i 3 := by
    intro i
    unfold setTransformations
    rw [scaleMatrix_lastCol, rotationXMatrix_lastCol, rotationYMatrix_lastCol,
      rotationZMatrix_lastCol]
  simp only [extractTranslation, h, Prod.mk.injEq]
  refine ⟨?_, ?_, ?_⟩ <;>
    simp [translationMatrix, Matrix.vecHead, Matrix.vecTail]

lemma findTextureSlotAux_first_match (l1 l2 : List TextureEntry) (e : TextureEntry)
    (tag : String) (k : Int) (he : e.tag = tag) (h1 : ∀ x ∈ l1, x.tag ≠ tag) :
    findTextureSlotAux (l1 ++ e :: l2) tag k = k + l1.length := by
  induction l1 generalizing k with
  | nil => simp [findTextureSlotAux, he]
  | cons a rest ih =>
      have ha : a.tag ≠ tag := h1 a (by simp)
      rw [List.cons_append, findTextureSlotAux, if_neg ha,
        ih (k + 1) (fun x hx => h1 x (by simp [hx]))]
      simp [List.length_cons]
      ring

/-- C8: loading the same tag twice is not rejected and yields two registry
entries (here: two successful loads grow the registry by exactly two), and
`FindTextureSlot` is a first-match linear lookup: for a registry split as
`l1 ++ e :: l2` where `e` is the earliest entry carrying the tag, it returns
the registration-order index `l1.length`. -/
theorem findTextureSlot_first_match (st l1 l2 : List TextureEntry)
    (e : TextureEntry) (d : ImageData) (n1 n2 : Nat) (tag : String) :
    (d.colorChannels = 3 ∨ d.colorChannels = 4 →
      ((createGLTexture (createGLTexture st (some d) n1 tag).2
          (some d) n2 tag).2).length = st.length + 2) ∧
    (e.tag = tag → (∀ x ∈ l1, x.tag ≠ tag) →
      findTextureSlot (l1 ++ e :: l2) tag = (l1.length : Int)) := by
  constructor
  · intro hch
    rcases hch with h3 | h4
    · simp [createGLTexture, h3]
    · by_cases h3 : d.colorChannels = 3 <;> simp [createGLTexture, h3, h4]
  · intro he h1
    rw [findTextureSlot, findTextureSlotAux_first_match l1 l2 e tag 0 he h1]
    ring

/-- Witness for C8 at concrete inputs: two loads of the tag "dup" on an empty
registry give two entries, and in the registry [("a"), ("b"), ("b")] the tag
"b" resolves to index 1, the earliest match. -/
theorem findTextureSlot_first_match_witness :
    ((createGLTexture (createGLTexture [] (some steelImage) 1 "dup").2
        (some steelImage) 2 "dup").2).length =
      List.length ([] : List TextureEntry) + 2 ∧
    findTextureSlot ([{ ID := 5, tag := "a" }] ++
        { ID := 6, tag := "b" } :: [{ ID := 7, tag := "b" }]) "b" =
      (List.length ([{ ID := 5, tag := "a" }] : List TextureEntry) : Int) := by
  constructor
  · exact (findTextureSlot_first_match [] [] [] { ID := 0, tag := "" }
      steelImage 1 2 "dup").1 (Or.inl rfl)
  · exact (findTextureSlot_first_match [] [{ ID := 5, tag := "a" }]
      [{ ID := 7, tag := "b" }] { ID := 6, tag := "b" } steelImage 1 2 "b").2
      rfl (by decide)

lemma applyOp_bUseTexture (registry : List TextureEntry)
    (materials : List OBJECT_MATERIAL) (s : ShaderState) (op : BinderOp) :
    (applyOp registry materials s op).bUseTexture =
      (match op with
       | .setColor _ _ _ _ => false
       | .setTexture _ => true
       | _ => s.bUseTexture) := by
  cases op with
  | setMaterial tag junk =>
      simp only [applyOp, setShaderMaterial]
      by_cases h : 0 < materials.length
      · simp only [if_pos h]
        by_cases hr : (findMaterial materials tag junk).1 <;> simp [hr]
      · simp only [if_neg h]
  | _ => rfl

/-- C9: the binder's texture-vs-flat-color mode is mutually exclusive and
last-call-wins — `SetShaderColor` pushes the RGBA color and sets the
use-texture flag to false, `SetShaderTexture` sets it to true, and after any
sequence of binder calls the flag equals whatever the last mode-setting call
selected (unchanged from the starting state when neither was called: nothing,
draws included, resets it implicitly). -/
theorem binder_texture_color_last_call_wins (registry : List TextureEntry)
    (materials : List OBJECT_MATERIAL) (s : ShaderState) (ops : List BinderOp)
    (red green blue alpha : ℚ) (tag : String) :
    (setShaderColor red green blue alpha s).bUseTexture = false ∧
    (setShaderColor red green blue alpha s).objectColor =
      { r := red, g := green, b := blue, a := alpha } ∧
    (setShaderTexture registry tag s).bUseTexture = true ∧
    (runOps registry materials s ops).bUseTexture =
      (match lastMode ops with
       | some b => b
       | none => s.bUseTexture) := by
  refine ⟨rfl, rfl, rfl, ?_⟩
  induction ops generalizing s with
  | nil => rfl
  | cons op rest ih =>
      have hstep : runOps registry materials s (op :: rest) =
          runOps registry materials (applyOp registry materials s op) rest := rfl
      rw [hstep, ih]
      cases hrest : lastMode rest with
      | some b => simp [lastMode, hrest]
      | none =>
          simp only [lastMode, hrest]
          rw [applyOp_bUseTexture]
          cases op <;> rfl

lemma findMaterialLoop_eq_find (l : List OBJECT_MATERIAL) (tag : String)
    (junk : OBJECT_MATERIAL) :
    findMaterialLoop l tag junk =
      (match l.find? (fun m => m.tag == tag) with
       | some m =>
          { junk with
              diffuseColor := m.diffuseColor
              specularColor := m.specularColor
              shininess := m.shininess }
       | none => junk) := by
  induction l with
  | nil => rfl
  | cons a rest ih =>
      by_cases h : a.tag = tag
      · simp [findMaterialLoop, h, List.find?_cons_of_pos]
      · rw [findMaterialLoop, if_neg h, ih,
          List.find?_cons_of_neg _ (by simpa using h)]

/-- C10: `FindMaterial`'s boolean result only reflects whether the catalog is
non-empty — false exactly on the empty catalog, true for any tag otherwise —
and the out-parameter receives the first matching entry's diffuse/specular/
shininess when the tag is present, and keeps its incoming (in the caller:
uninitialized) value when it is absent. -/
theorem findMaterial_result_characterization (catalog : List OBJECT_MATERIAL)
    (tag : String) (junk : OBJECT_MATERIAL) :
    (findMaterial catalog tag junk).1 = !catalog.isEmpty ∧
    (findMaterial catalog tag junk).2 =
      (match catalog.find? (fun m => m.tag == tag) with
       | some m =>
          { junk with
              diffuseColor := m.diffuseColor
              specularColor := m.specularColor
              shininess := m.shininess }
       | none => junk) := by
  constructor
  · cases catalog <;> simp [findMaterial]
  · cases catalog with
    | nil => rfl
    | cons a rest =>
        rw [findMaterial, if_neg (by simp)]
        exact findMaterialLoop_eq_find (a :: rest) tag junk
